import Mathlib

/-!
Verification of the Bible MCP server (`server.py`).

The four tool handlers are shallowly embedded as pure functions of the
caller-supplied arguments together with the upstream HTTP response
(status code and parsed JSON data).  Python dictionary access that can
raise `KeyError` is modelled by `Option`: a `none` result means an
exception propagates out of the handler.  URL construction is embedded
separately from response formatting, since the two are independent in
the source.
-/

namespace Server

/-- Python `s or d` for strings: the empty string is falsy. -/
def pyOr (s d : String) : String := if s = "" then d else s

/-- Python `n or d` for integers: `0` is falsy. -/
def pyOrInt (n d : Int) : Int := if n = 0 then d else n

/-- The whitespace characters stripped by Python `str.strip()`. -/
def pyIsSpace (c : Char) : Bool :=
  c = ' ' || c = '\t' || c = '\n' || c = '\r' || c = '\x0b' || c = '\x0c'

/-- Strip leading and trailing whitespace from a character list. -/
def stripChars (l : List Char) : List Char :=
  ((l.dropWhile pyIsSpace).reverse.dropWhile pyIsSpace).reverse

/-- Embedding of Python `str.strip()`. -/
def pyStrip (s : String) : String := ⟨stripChars s.data⟩

/-- Embedding of Python `sep.join(xs)`. -/
def pyJoin (sep : String) : List String → String
  | [] => ""
  | [x] => x
  | x :: y :: rest => x ++ sep ++ pyJoin sep (y :: rest)

/-- Embedding of the Python slice `xs[:k]`, including negative `k`,
which counts from the end of the list. -/
def pySliceTo (k : Int) (xs : List α) : List α :=
  if 0 ≤ k then xs.take k.toNat else xs.take (xs.length - (-k).toNat)

/-- One verse object inside the `verses` list of a chapter response. -/
structure VerseEntry where
  verse : Nat
  text : String
deriving DecidableEq

/-- One verse object inside a search response list. -/
structure SearchEntry where
  reference : String
  text : String
deriving DecidableEq

/-- The parsed JSON object returned by the upstream API for the
verse/chapter/random endpoints.  Each field is optional: reading an
absent field in Python raises `KeyError`. -/
structure ApiData where
  error : Option String
  reference : Option String
  translation_name : Option String
  text : Option String
  verses : Option (List VerseEntry)

/-- URL built by `get_verse` (after the `translation or 'kjv'` default). -/
def get_verse_url (reference translation : String) : String :=
  "https://bible-api.com/" ++ reference ++ "?translation=" ++ pyOr translation "kjv"

/-- Response formatting of `get_verse`: `none` models a propagating
exception (a `KeyError` on a missing JSON field). -/
def get_verse (reference translation : String) (status : Nat) (data : ApiData) :
    Option String :=
  if status = 200 then
    match data.error with
    | some err => some ("Error: " ++ err)
    | none => do
      let r ← data.reference
      let tn ← data.translation_name
      let tx ← data.text
      pure (r ++ " (" ++ tn ++ "):\n" ++ pyStrip tx)
  else some ("Error fetching verse: HTTP " ++ Nat.repr status)

/-- Formatting of a single search result line in `search_verses`. -/
def fmtSearch (v : SearchEntry) : String := v.reference ++ ": " ++ pyStrip v.text

/-- URL built by `search_verses` (after the `limit or 10` default). -/
def search_verses_url (query : String) (limit : Int) : String :=
  "https://bible-api.com/search/" ++ query ++ "?limit=" ++ toString (pyOrInt limit 10)

/-- Response formatting of `search_verses`.  The upstream data is the
parsed JSON list of matching verse objects. -/
def search_verses (query : String) (limit : Int) (status : Nat)
    (data : List SearchEntry) : String :=
  if status = 200 then
    if data.isEmpty || data.length == 0 then
      "No verses found containing '" ++ query ++ "'"
    else
      let results := (pySliceTo (pyOrInt limit 10) data).map fmtSearch
      "Found " ++ Nat.repr results.length ++ " verse(s) for '" ++ query ++ "':\n\n" ++
        pyJoin "\n\n" results
  else "Error searching verses: HTTP " ++ Nat.repr status

/-- One line of the chapter body: `f"{verse['verse']}. {verse['text']}\n"`. -/
def lineOf (v : VerseEntry) : String := Nat.repr v.verse ++ ". " ++ v.text ++ "\n"

/-- URL built by `get_chapter` (after the `translation or 'kjv'` default). -/
def get_chapter_url (book_chapter translation : String) : String :=
  "https://bible-api.com/" ++ book_chapter ++ "?translation=" ++ pyOr translation "kjv"

/-- Response formatting of `get_chapter`. -/
def get_chapter (book_chapter translation : String) (status : Nat) (data : ApiData) :
    Option String :=
  if status = 200 then
    match data.error with
    | some err => some ("Error: " ++ err)
    | none => do
      let r ← data.reference
      let tn ← data.translation_name
      let vs ← data.verses
      pure (pyStrip (vs.foldl (fun acc v => acc ++ lineOf v) (r ++ " (" ++ tn ++ "):\n\n")))
  else some ("Error fetching chapter: HTTP " ++ Nat.repr status)

/-- The hardcoded 12-entry inspiring-verse list of `get_random_verse`. -/
def inspiring_verses : List String :=
  ["Jeremiah 29:11", "Romans 8:28", "Philippians 4:13", "John 3:16",
   "Psalm 23:1", "Isaiah 40:31", "Proverbs 3:5-6", "Matthew 28:20",
   "Romans 8:31", "Ephesians 2:8-9", "Psalm 46:1", "Isaiah 41:10"]

/-- URL built by `get_random_verse`: `random.choice` is modelled by an
arbitrary index into the fixed list. -/
def get_random_verse_url (translation : String) (choice : Fin 12) : String :=
  "https://bible-api.com/" ++ inspiring_verses.get choice ++ "?translation=" ++
    pyOr translation "kjv"

/-- Response formatting of `get_random_verse`.  Note the source has no
check of the `error` field on the 200 path. -/
def get_random_verse (translation : String) (status : Nat) (data : ApiData) :
    Option String :=
  if status = 200 then do
    let r ← data.reference
    let tn ← data.translation_name
    let tx ← data.text
    pure ("Random Verse - " ++ r ++ " (" ++ tn ++ "):\n" ++ pyStrip tx)
  else some ("Error fetching random verse: HTTP " ++ Nat.repr status)

/-- The hardcoded 66-book list of the `bible://books` resource. -/
def books : List String :=
  ["Genesis (Gen)", "Exodus (Exo)", "Leviticus (Lev)", "Numbers (Num)", "Deuteronomy (Deu)",
   "Joshua (Jos)", "Judges (Jdg)", "Ruth (Rut)", "1 Samuel (1Sa)", "2 Samuel (2Sa)",
   "1 Kings (1Ki)", "2 Kings (2Ki)", "1 Chronicles (1Ch)", "2 Chronicles (2Ch)", "Ezra (Ezr)",
   "Nehemiah (Neh)", "Esther (Est)", "Job (Job)", "Psalms (Psa)", "Proverbs (Pro)",
   "Ecclesiastes (Ecc)", "Song of Solomon (Son)", "Isaiah (Isa)", "Jeremiah (Jer)",
   "Lamentations (Lam)",
   "Ezekiel (Eze)", "Daniel (Dan)", "Hosea (Hos)", "Joel (Joe)", "Amos (Amo)",
   "Obadiah (Oba)", "Jonah (Jon)", "Micah (Mic)", "Nahum (Nah)", "Habakkuk (Hab)",
   "Zephaniah (Zep)", "Haggai (Hag)", "Zechariah (Zec)", "Malachi (Mal)",
   "Matthew (Mat)", "Mark (Mar)", "Luke (Luk)", "John (Joh)", "Acts (Act)",
   "Romans (Rom)", "1 Corinthians (1Co)", "2 Corinthians (2Co)", "Galatians (Gal)",
   "Ephesians (Eph)",
   "Philippians (Phi)", "Colossians (Col)", "1 Thessalonians (1Th)", "2 Thessalonians (2Th)",
   "1 Timothy (1Ti)",
   "2 Timothy (2Ti)", "Titus (Tit)", "Philemon (Phm)", "Hebrews (Heb)", "James (Jam)",
   "1 Peter (1Pe)", "2 Peter (2Pe)", "1 John (1Jo)", "2 John (2Jo)", "3 John (3Jo)",
   "Jude (Jud)", "Revelation (Rev)"]

/-- Python format spec `{n:2d}` for the numbers occurring here (1..66):
right-aligned in a field of width two. -/
def fmt2d (n : Nat) : String := if n < 10 then " " ++ Nat.repr n else Nat.repr n

/-- The formatted entry lines of the book-list resource. -/
def bookEntries : List String :=
  books.enum.map fun p => fmt2d (p.1 + 1) ++ ". " ++ p.2

/-- The constant string returned by the `bible://books` resource. -/
def bible_books : String :=
  "Bible Books (" ++ Nat.repr books.length ++ " total):\n\n" ++ pyJoin "\n" bookEntries

/-- The hardcoded translation table of the `bible://translations` resource,
in Python dict insertion order. -/
def translations : List (String × String) :=
  [("KJV", "King James Version (1769)"),
   ("ASV", "American Standard Version (1901)"),
   ("BBE", "Bible in Basic English (1965)"),
   ("WEB", "World English Bible"),
   ("YLT", "Youngs Literal Translation (1898)"),
   ("DARBY", "Darby Translation (1890)")]

/-- The constant string returned by the `bible://translations` resource. -/
def bible_translations : String :=
  "Available Bible Translations:\n\n" ++
    pyJoin "\n" (translations.map fun p => p.1 ++ ": " ++ p.2) ++
    "\n\nNote: Use the code (e.g., 'KJV') when specifying translation in tools."

/-- The literal segments of the `bible_study` f-string template. -/
def studyHead : String := "Create a comprehensive Bible study guide for: "

def studyMid : String := "\n\nStudy Level: "

def studyTail : String :=
  "\n\nPlease include:\n1. **Key Verses**: 3-5 relevant Bible verses with references\n2. **Context**: Historical and cultural background\n3. **Main Themes**: Core theological concepts\n4. **Application**: How this applies to modern life\n5. **Discussion Questions**: 3-4 thought-provoking questions\n6. **Prayer Points**: Suggested areas for prayer\n7. **Further Study**: Related passages or topics to explore\n\nMake this study guide practical and accessible for personal or group study."

/-- The `bible_study` prompt template, a pure interpolation of its two
arguments into the fixed literal segments. -/
def bible_study (topic_or_passage study_level : String) : String :=
  studyHead ++ topic_or_passage ++ studyMid ++ study_level ++ studyTail

/-- The literal segments of the `daily_reflection` f-string template. -/
def reflectHead : String := "Daily Devotional Reflection\n\n**Scripture Focus**: "

def reflectMid : String := "\n**Life Focus**: "

def reflectTail : String :=
  "\n\nCreate a meaningful daily devotional that includes:\n\n1. **Opening Prayer**: A brief prayer to center the heart\n2. **Scripture Reading**: The full text of the verse(s)\n3. **Reflection**: 2-3 paragraphs exploring the meaning and relevance\n4. **Personal Application**: Specific ways to apply this truth today\n5. **Closing Prayer**: A prayer incorporating the day's lesson\n6. **Action Step**: One concrete step to take today\n\nWrite this in a warm, encouraging tone that speaks to both heart and mind. Make it practical for someone's daily walk with God."

/-- The `daily_reflection` prompt template, a pure interpolation of its
two arguments into the fixed literal segments. -/
def daily_reflection (verse_or_theme focus_area : String) : String :=
  reflectHead ++ verse_or_theme ++ reflectMid ++ focus_area ++ reflectTail

/-- Auxiliary for splitting a character list at a separator. -/
def consHead (a : Char) : List (List Char) → List (List Char)
  | [] => [[a]]
  | l :: ls => (a :: l) :: ls

/-- Split a character list at every occurrence of `c` (the semantics of
Python `s.split(c)` on the underlying characters). -/
def splitCh (c : Char) : List Char → List (List Char)
  | [] => [[]]
  | a :: as => if a = c then [] :: splitCh c as else consHead a (splitCh c as)

/-- Number of lines of a string, in the sense of `s.split('\n')`. -/
def lineCount (s : String) : Nat := (splitCh '\n' s.data).length

/-- The chapter body built by the accumulation loop of `get_chapter`,
written as a structural recursion for reasoning. -/
def bodyStr : List VerseEntry → String
  | [] => ""
  | v :: rest => lineOf v ++ bodyStr rest

/-- A sample upstream search result list with five matches. -/
def d5ex : List SearchEntry :=
  [⟨"R1", "t1"⟩, ⟨"R2", "t2"⟩, ⟨"R3", "t3"⟩, ⟨"R4", "t4"⟩, ⟨"R5", "t5"⟩]

end Server

namespace Server

theorem data_append (s t : String) : (s ++ t).data = s.data ++ t.data := rfl

theorem strAppend_assoc (a b c : String) : a ++ b ++ c = a ++ (b ++ c) :=
  String.ext (by simp [data_append])

theorem strAppend_empty (s : String) : s ++ "" = s :=
  String.ext (by simp [data_append])

theorem digitChar_ne_nl (n : Nat) : Nat.digitChar n ≠ '\n' := by
  rcases Nat.lt_or_ge n 16 with hlt | hge
  · interval_cases n <;> decide
  · have h : ∀ m : Nat, m < 16 → n ≠ m := by omega
    have hstar : Nat.digitChar n = '*' := by
      unfold Nat.digitChar
      rw [if_neg (h 0 (by norm_num)), if_neg (h 1 (by norm_num)), if_neg (h 2 (by norm_num)),
        if_neg (h 3 (by norm_num)), if_neg (h 4 (by norm_num)), if_neg (h 5 (by norm_num)),
        if_neg (h 6 (by norm_num)), if_neg (h 7 (by norm_num)), if_neg (h 8 (by norm_num)),
        if_neg (h 9 (by norm_num)), if_neg (h 10 (by norm_num)), if_neg (h 11 (by norm_num)),
        if_neg (h 12 (by norm_num)), if_neg (h 13 (by norm_num)), if_neg (h 14 (by norm_num)),
        if_neg (h 15 (by norm_num))]
    rw [hstar]; decide

theorem toDigitsCore_count_nl : ∀ (fuel n : Nat) (acc : List Char), acc.count '\n' = 0 →
    (Nat.toDigitsCore 10 fuel n acc).count '\n' = 0 := by
  intro fuel
  induction fuel with
  | zero => intro n acc h; simpa [Nat.toDigitsCore] using h
  | succ f ih =>
    intro n acc h
    rw [Nat.toDigitsCore]
    have hd : (Nat.digitChar (n % 10) :: acc).count '\n' = 0 := by
      rw [List.count_cons]
      simp [h, digitChar_ne_nl]
    split
    · exact hd
    · exact ih _ _ hd

theorem repr_count_nl (n : Nat) : (Nat.repr n).data.count '\n' = 0 := by
  show (Nat.toDigits 10 n).count '\n' = 0
  exact toDigitsCore_count_nl _ _ _ rfl

theorem dropWhile_stop (p : Char → Bool) (a : Char) (ha : p a = false)
    (u v : List Char) : (u ++ a :: v).dropWhile p = u.dropWhile p ++ a :: v := by
  induction u with
  | nil => simp [List.dropWhile_cons, ha]
  | cons x xs ih =>
    cases hx : p x
    · simp [List.dropWhile_cons, hx]
    · simp [List.dropWhile_cons, hx, ih]

theorem count_dropWhile_zero (p : Char → Bool) (c : Char) (l : List Char)
    (h : l.count c = 0) : (l.dropWhile p).count c = 0 :=
  Nat.le_zero.mp (h ▸ List.Sublist.count_le (List.dropWhile_sublist p) c)

theorem consHead_length (a : Char) (r : List (List Char)) (h : r ≠ []) :
    (consHead a r).length = r.length := by
  cases r with
  | nil => exact absurd rfl h
  | cons x xs => simp [consHead]

theorem splitCh_ne_nil (c : Char) (l : List Char) : splitCh c l ≠ [] := by
  induction l with
  | nil => simp [splitCh]
  | cons a as ih =>
    simp only [splitCh]
    split
    · simp
    · cases h : splitCh c as with
      | nil => simp [consHead]
      | cons x xs => simp [consHead]

theorem strEmpty_append (s : String) : "" ++ s = s := rfl

theorem foldl_lineOf (vs : List VerseEntry) (init : String) :
    vs.foldl (fun acc v => acc ++ lineOf v) init = init ++ bodyStr vs := by
  induction vs generalizing init with
  | nil => simp [bodyStr, strAppend_empty]
  | cons v rest ih =>
    simp only [List.foldl_cons, bodyStr]
    rw [ih, strAppend_assoc]

theorem bodyStr_append (a b : List VerseEntry) :
    bodyStr (a ++ b) = bodyStr a ++ bodyStr b := by
  induction a with
  | nil => simp [bodyStr, strEmpty_append]
  | cons v rest ih => simp [bodyStr, ih, strAppend_assoc]

theorem bodyStr_count (vs : List VerseEntry)
    (h : ∀ v ∈ vs, v.text.data.count '\n' = 0) :
    (bodyStr vs).data.count '\n' = vs.length := by
  induction vs with
  | nil => decide
  | cons v rest ih =>
    have hv : (lineOf v).data.count '\n' = 1 := by
      have h1 : ((". " : String).data).count '\n' = 0 := by decide
      have h2 : (("\n" : String).data).count '\n' = 1 := by decide
      have h3 := h v (List.mem_cons_self _ _)
      unfold lineOf
      simp only [data_append, List.count_append]
      rw [repr_count_nl, h1, h2, h3]
    simp only [bodyStr, data_append, List.count_append, List.length_cons]
    rw [ih (fun w hw => h w (List.mem_cons_of_mem _ hw)), hv]
    omega

theorem count_stripChars (u m digits tx : List Char)
    (hu : u.count '\n' = 0) (hd : digits.count '\n' = 0) (htx : tx.count '\n' = 0) :
    (stripChars (u ++ '(' :: (m ++ (digits ++ '.' :: ' ' :: (tx ++ ['\n']))))).count '\n'
      = m.count '\n' := by
  unfold stripChars
  rw [dropWhile_stop pyIsSpace '(' (by decide) u _, List.count_reverse]
  have hrev : ((u.dropWhile pyIsSpace ++
      '(' :: (m ++ (digits ++ '.' :: ' ' :: (tx ++ ['\n'])))).reverse)
      = '\n' :: ((tx.reverse ++ [' ']) ++ '.' ::
          (digits.reverse ++ (m.reverse ++ '(' :: (u.dropWhile pyIsSpace).reverse))) := by
    simp [List.reverse_append, List.reverse_cons, List.append_assoc]
  rw [hrev]
  have hnl : List.dropWhile pyIsSpace
      ('\n' :: ((tx.reverse ++ [' ']) ++ '.' ::
        (digits.reverse ++ (m.reverse ++ '(' :: (u.dropWhile pyIsSpace).reverse))))
      = List.dropWhile pyIsSpace ((tx.reverse ++ [' ']) ++ '.' ::
        (digits.reverse ++ (m.reverse ++ '(' :: (u.dropWhile pyIsSpace).reverse))) := by
    simp [List.dropWhile_cons, show pyIsSpace '\n' = true from by decide]
  rw [hnl, dropWhile_stop pyIsSpace '.' (by decide)]
  have h1 : ((tx.reverse ++ [' ']).dropWhile pyIsSpace).count '\n' = 0 := by
    apply count_dropWhile_zero
    simp [List.count_append, List.count_reverse, htx]
  have h2 : ((u.dropWhile pyIsSpace).reverse).count '\n' = 0 := by
    rw [List.count_reverse]
    exact count_dropWhile_zero _ _ _ hu
  simp [List.count_append, List.count_cons, List.count_reverse, h1, h2, hd]

theorem splitCh_length (c : Char) (l : List Char) :
    (splitCh c l).length = l.count c + 1 := by
  induction l with
  | nil => simp [splitCh]
  | cons a as ih =>
    simp only [splitCh]
    split
    · rename_i h
      simp only [List.length_cons, ih, List.count_cons]
      simp [h]
    · rename_i h
      rw [consHead_length _ _ (splitCh_ne_nil c as), ih, List.count_cons]
      simp [h]

theorem pyJoin_count (sep : String) (hsep : sep.data.count '\n' = 1) :
    ∀ (xs : List String), (∀ x ∈ xs, x.data.count '\n' = 0) →
      (pyJoin sep xs).data.count '\n' = xs.length - 1 := by
  intro xs
  induction xs with
  | nil => intro _; simp only [pyJoin]; decide
  | cons x rest ih =>
    intro h
    cases rest with
    | nil =>
      have hx := h x (by simp)
      simpa [pyJoin] using hx
    | cons y rs =>
      have hx := h x (by simp)
      have hr := ih (fun z hz => h z (by simp [hz]))
      simp only [pyJoin, data_append, List.count_append]
      rw [hx, hsep, hr]
      simp only [List.length_cons]
      omega

/-- C3: the claim as stated is false on the code.  With one upstream
verse the returned string is `"Genesis 1 (KJV):\n\n1. light"`, which has
three lines: a header line, the blank separator line produced by the
`":\n\n"` in the header literal, and one verse line.  Excluding only the
header line leaves 2 lines, not 1. -/
theorem get_chapter_blank_line_counterexample :
    get_chapter "Genesis 1" "kjv" 200
        ⟨none, some "Genesis 1", some "KJV", none, some [⟨1, "light"⟩]⟩
      = some "Genesis 1 (KJV):\n\n1. light" ∧
    lineCount "Genesis 1 (KJV):\n\n1. light" - 1 = 2 ∧
    [VerseEntry.mk 1 "light"].length = 1 ∧ (2 : Nat) ≠ 1 := by decide

/-- C3 (amended): on HTTP 200 with no error field, when the upstream
reference, translation name and verse texts contain no newline
characters and the verses list is nonempty, the chapter output has
exactly `verses.length + 2` lines: the header line, one blank separator
line, and one line per verse. -/
theorem get_chapter_line_count (bc tr r tn : String) (tx : Option String)
    (vs : List VerseEntry)
    (hr : r.data.count '\n' = 0) (htn : tn.data.count '\n' = 0)
    (hv : ∀ v ∈ vs, v.text.data.count '\n' = 0) (hne : vs ≠ []) :
    ∃ out, get_chapter bc tr 200 ⟨none, some r, some tn, tx, some vs⟩ = some out ∧
      lineCount out = vs.length + 2 := by
  refine ⟨_, rfl, ?_⟩
  rcases List.eq_nil_or_concat vs with h | ⟨vs', vN, hvs⟩
  · exact absurd h hne
  rw [List.concat_eq_append] at hvs
  subst hvs
  have htxN : vN.text.data.count '\n' = 0 := hv vN (by simp)
  have hv' : ∀ v ∈ vs', v.text.data.count '\n' = 0 := fun v hw => hv v (by simp [hw])
  unfold lineCount pyStrip
  rw [foldl_lineOf, splitCh_length]
  have e1 : (" (" : String).data = [' ', '('] := rfl
  have e2 : (("):\n\n" : String)).data = [')', ':', '\n', '\n'] := rfl
  have e3 : ((". " : String)).data = ['.', ' '] := rfl
  have e4 : (("\n" : String)).data = ['\n'] := rfl
  have hshape : ((r ++ " (" ++ tn ++ "):\n\n") ++ bodyStr (vs' ++ [vN])).data
      = (r.data ++ [' ']) ++ '(' ::
          ((tn.data ++ ([')', ':', '\n', '\n'] ++ (bodyStr vs').data)) ++
            ((Nat.repr vN.verse).data ++ '.' :: ' ' :: (vN.text.data ++ ['\n']))) := by
    rw [bodyStr_append]
    simp only [bodyStr, lineOf, data_append, e1, e2, e3, e4, List.append_assoc,
      List.cons_append, List.nil_append]
  rw [hshape, count_stripChars (r.data ++ [' ']) _ _ _
      (by simp [List.count_append, hr])
      (repr_count_nl vN.verse) htxN]
  have hmid : ([')', ':', '\n', '\n'] : List Char).count '\n' = 2 := by decide
  simp only [List.count_append, htn, hmid, bodyStr_count vs' hv', List.length_append,
    List.length_cons, List.length_nil]
  omega

/-- Witness for the amended C3 theorem at a concrete two-verse chapter. -/
theorem get_chapter_line_count_witness :
    ("Genesis 1" : String).data.count '\n' = 0 ∧ ("KJV" : String).data.count '\n' = 0 ∧
    (∀ v ∈ [VerseEntry.mk 1 "light", VerseEntry.mk 2 "dark"],
      v.text.data.count '\n' = 0) ∧
    [VerseEntry.mk 1 "light", VerseEntry.mk 2 "dark"] ≠ [] ∧
    (∃ out, get_chapter "Genesis 1" "kjv" 200
        ⟨none, some "Genesis 1", some "KJV", none,
          some [VerseEntry.mk 1 "light", VerseEntry.mk 2 "dark"]⟩ = some out ∧
      lineCount out = [VerseEntry.mk 1 "light", VerseEntry.mk 2 "dark"].length + 2) :=
  ⟨by decide, by decide, by decide, by decide,
    get_chapter_line_count "Genesis 1" "kjv" "Genesis 1" "KJV" none
      [VerseEntry.mk 1 "light", VerseEntry.mk 2 "dark"]
      (by decide) (by decide) (by decide) (by decide)⟩

/-- C1: on HTTP 200 with no error field (and the schema fields present),
`get_verse` returns exactly the upstream reference, `" ("`, the upstream
translation name, `"):"`, a newline, and the stripped upstream text; in
particular the output starts with the upstream reference followed by
`" ("`. -/
theorem get_verse_success (ref tr r tn tx : String) (vs : Option (List VerseEntry)) :
    get_verse ref tr 200 ⟨none, some r, some tn, some tx, vs⟩
      = some (r ++ " (" ++ tn ++ "):\n" ++ pyStrip tx) ∧
    ∃ rest, get_verse ref tr 200 ⟨none, some r, some tn, some tx, vs⟩
      = some ((r ++ " (") ++ rest) := by
  refine ⟨rfl, ⟨tn ++ ("):\n" ++ pyStrip tx), ?_⟩⟩
  show some (r ++ " (" ++ tn ++ "):\n" ++ pyStrip tx) = _
  simp only [strAppend_assoc]

/-- C2: the claim is false on the code.  `get_random_verse` does not
check the `error` field: on HTTP 200 with `{"error": "not found"}` as the
parsed data it raises a `KeyError` reading `reference` (modelled as
`none`) instead of returning `"Error: not found"`. -/
theorem get_random_verse_error_counterexample :
    get_random_verse "kjv" 200 ⟨some "not found", none, none, none, none⟩ = none ∧
    get_random_verse "kjv" 200 ⟨some "not found", none, none, none, none⟩
      ≠ some "Error: not found" := by decide

/-- C2 (amended): on HTTP 200 `get_random_verse` ignores any `error`
field entirely: it formats `"Random Verse - {reference}
({translation_name}):\n{text stripped}"` whenever the three schema
fields are present, and an exception propagates (result `none`) whenever
`reference` is missing — even when an `error` field is present. -/
theorem get_random_verse_ignores_error (tr r tn tx : String) (e : Option String)
    (vs : Option (List VerseEntry)) :
    get_random_verse tr 200 ⟨e, some r, some tn, some tx, vs⟩
      = some ("Random Verse - " ++ r ++ " (" ++ tn ++ "):\n" ++ pyStrip tx) ∧
    get_random_verse tr 200 ⟨e, none, none, none, vs⟩ = none :=
  ⟨rfl, rfl⟩

/-- C4: for any non-200 upstream status, each of the four tools returns
normally with a string containing the literal `"HTTP "` immediately
followed by the decimal status code. -/
theorem non200_http_status (status : Nat) (h : status ≠ 200)
    (ref tr bc q : String) (limit : Int) (d1 d2 d3 : ApiData) (ds : List SearchEntry) :
    (∃ a, get_verse ref tr status d1 = some (a ++ ("HTTP " ++ Nat.repr status))) ∧
    (∃ a, search_verses q limit status ds = a ++ ("HTTP " ++ Nat.repr status)) ∧
    (∃ a, get_chapter bc tr status d2 = some (a ++ ("HTTP " ++ Nat.repr status))) ∧
    (∃ a, get_random_verse tr status d3 = some (a ++ ("HTTP " ++ Nat.repr status))) := by
  unfold get_verse search_verses get_chapter get_random_verse
  rw [if_neg h, if_neg h, if_neg h, if_neg h]
  refine ⟨⟨"Error fetching verse: ", ?_⟩, ⟨"Error searching verses: ", ?_⟩,
    ⟨"Error fetching chapter: ", ?_⟩, ⟨"Error fetching random verse: ", ?_⟩⟩
  · rw [show ("Error fetching verse: HTTP " : String)
      = "Error fetching verse: " ++ "HTTP " from by decide, strAppend_assoc]
  · rw [show ("Error searching verses: HTTP " : String)
      = "Error searching verses: " ++ "HTTP " from by decide, strAppend_assoc]
  · rw [show ("Error fetching chapter: HTTP " : String)
      = "Error fetching chapter: " ++ "HTTP " from by decide, strAppend_assoc]
  · rw [show ("Error fetching random verse: HTTP " : String)
      = "Error fetching random verse: " ++ "HTTP " from by decide, strAppend_assoc]

/-- Witness for C4 at status 404. -/
theorem non200_http_status_witness :
    (404 : Nat) ≠ 200 ∧
    ((∃ a, get_verse "John 3:16" "" 404 ⟨none, none, none, none, none⟩
        = some (a ++ ("HTTP " ++ Nat.repr 404))) ∧
     (∃ a, search_verses "love" 10 404 [] = a ++ ("HTTP " ++ Nat.repr 404)) ∧
     (∃ a, get_chapter "Genesis 1" "" 404 ⟨none, none, none, none, none⟩
        = some (a ++ ("HTTP " ++ Nat.repr 404))) ∧
     (∃ a, get_random_verse "" 404 ⟨none, none, none, none, none⟩
        = some (a ++ ("HTTP " ++ Nat.repr 404)))) :=
  ⟨by decide, non200_http_status 404 (by decide) "John 3:16" "" "Genesis 1" "love" 10
    ⟨none, none, none, none, none⟩ ⟨none, none, none, none, none⟩
    ⟨none, none, none, none, none⟩ []⟩

/-- C5: the claim as stated is false on the code.  A negative `limit` is
not falsy in Python, so it is not replaced by 10, and the slice
`data[:limit]` then drops `-limit` entries from the end: with `limit=-1`
and five matches the output contains four formatted entries, which is
not "at most `limit`". -/
theorem search_verses_negative_limit_counterexample :
    search_verses "love" (-1) 200 d5ex
      = "Found 4 verse(s) for 'love':\n\nR1: t1\n\nR2: t2\n\nR3: t3\n\nR4: t4" ∧
    ¬((4 : Int) ≤ -1) := by decide

/-- C5 (amended): for a nonnegative `limit` argument (with 0 defaulting
to 10), on HTTP 200 with a nonempty result list the output contains
exactly `min limit data.length` formatted entries — hence at most
`limit` — each `"{reference}: {text stripped}"`, joined by blank lines,
and the count in the `"Found {n} verse(s)"` header equals the number of
entries included. -/
theorem search_verses_limit (q : String) (limit : Int) (data : List SearchEntry)
    (hl : 0 ≤ limit) (hd : data ≠ []) :
    search_verses q limit 200 data
      = "Found " ++ Nat.repr ((data.take (pyOrInt limit 10).toNat).map fmtSearch).length ++
          " verse(s) for '" ++ q ++ "':\n\n" ++
          pyJoin "\n\n" ((data.take (pyOrInt limit 10).toNat).map fmtSearch) ∧
    ((data.take (pyOrInt limit 10).toNat).map fmtSearch).length
      = min (pyOrInt limit 10).toNat data.length ∧
    (((data.take (pyOrInt limit 10).toNat).map fmtSearch).length : Int)
      ≤ pyOrInt limit 10 := by
  have hL : 0 ≤ pyOrInt limit 10 := by unfold pyOrInt; split <;> omega
  have hslice : pySliceTo (pyOrInt limit 10) data
      = data.take (pyOrInt limit 10).toNat := by
    unfold pySliceTo; rw [if_pos hL]
  have hcond : (data.isEmpty || data.length == 0) = false := by
    cases data with
    | nil => exact absurd rfl hd
    | cons x xs => rfl
  refine ⟨?_, ?_, ?_⟩
  · unfold search_verses
    rw [if_pos rfl, hcond]
    simp only [Bool.false_eq_true, if_false, hslice]
  · simp [List.length_take]
  · have h1 : ((data.take (pyOrInt limit 10).toNat).map fmtSearch).length
        = min (pyOrInt limit 10).toNat data.length := by simp [List.length_take]
    rw [h1]
    omega

/-- Witness for the amended C5 theorem: `limit=2` against five matches
yields exactly two entries and a header counting two. -/
theorem search_verses_limit_witness :
    ((0 : Int) ≤ 2) ∧ d5ex ≠ [] ∧
    (search_verses "love" 2 200 d5ex
      = "Found " ++ Nat.repr ((d5ex.take (pyOrInt 2 10).toNat).map fmtSearch).length ++
          " verse(s) for '" ++ "love" ++ "':\n\n" ++
          pyJoin "\n\n" ((d5ex.take (pyOrInt 2 10).toNat).map fmtSearch) ∧
    ((d5ex.take (pyOrInt 2 10).toNat).map fmtSearch).length
      = min (pyOrInt 2 10).toNat d5ex.length ∧
    (((d5ex.take (pyOrInt 2 10).toNat).map fmtSearch).length : Int)
      ≤ pyOrInt 2 10) :=
  ⟨by decide, by decide, search_verses_limit "love" 2 d5ex (by decide) (by decide)⟩

/-- C6: on HTTP 200 with an empty result list, the search tool returns
exactly the string `"No verses found containing '{query}'"`, with no
trailing content. -/
theorem search_verses_empty (q : String) (limit : Int) :
    search_verses q limit 200 [] = "No verses found containing '" ++ q ++ "'" := rfl

/-- C7: with an empty (falsy) translation argument, the translation used
in the outbound URL of the verse, chapter and random-verse tools is
exactly `"kjv"`. -/
theorem falsy_translation_defaults (ref bc : String) (choice : Fin 12) :
    get_verse_url ref "" = "https://bible-api.com/" ++ ref ++ "?translation=" ++ "kjv" ∧
    get_chapter_url bc "" = "https://bible-api.com/" ++ bc ++ "?translation=" ++ "kjv" ∧
    get_random_verse_url "" choice
      = "https://bible-api.com/" ++ inspiring_verses.get choice ++
          "?translation=" ++ "kjv" :=
  ⟨rfl, rfl, rfl⟩

/-- C8: whatever index the random draw produces, the reference placed in
the outbound URL is an element of the fixed 12-entry inspiring-verse
list, which is a constant of the embedding. -/
theorem random_verse_from_fixed_list (tr : String) (choice : Fin 12) :
    inspiring_verses.length = 12 ∧
    inspiring_verses.get choice ∈ inspiring_verses ∧
    get_random_verse_url tr choice
      = "https://bible-api.com/" ++ inspiring_verses.get choice ++
          "?translation=" ++ pyOr tr "kjv" := by
  refine ⟨rfl, ?_, rfl⟩
  exact List.get_mem _ _ _

set_option maxRecDepth 4000

/-- C9: the book-list resource is a constant string: its formatted entry
list has exactly 66 entries, entry `i` is the number `i+1` (width-2
right-aligned) followed by the `i`-th book name with abbreviation, and
the full string consists of a header line, a blank line and the 66 entry
lines. -/
theorem bible_books_resource :
    books.length = 66 ∧ bookEntries.length = 66 ∧
    bible_books = "Bible Books (66 total):\n\n" ++ pyJoin "\n" bookEntries ∧
    (∀ i : Fin 66, bookEntries.getD i.1 "" = fmt2d (i.1 + 1) ++ ". " ++ books.getD i.1 "") ∧
    lineCount bible_books = 68 := by
  have hlen : bookEntries.length = 66 := by
    simp [bookEntries, List.enum_length, books]
  have hent : ∀ x ∈ bookEntries, x.data.count '\n' = 0 := by decide
  have hhead : ("Bible Books (" ++ Nat.repr books.length ++ " total):\n\n" : String)
      = "Bible Books (66 total):\n\n" := by decide
  have h3 : bible_books = "Bible Books (66 total):\n\n" ++ pyJoin "\n" bookEntries := by
    unfold bible_books
    rw [hhead]
  refine ⟨by decide, hlen, h3, by decide, ?_⟩
  unfold lineCount
  rw [splitCh_length, h3, data_append, List.count_append, pyJoin_count "\n" (by decide)
    bookEntries hent, hlen]
  have hc : (("Bible Books (66 total):\n\n" : String).data).count '\n' = 2 := by decide
  rw [hc]

/-- C10: the two prompt generators are pure interpolations — each output
contains both caller-supplied arguments verbatim between the fixed
template segments — and, as functions, the prompt generators and the two
constant resources return identical strings for identical arguments. -/
theorem prompts_and_resources_pure (t s : String) :
    (∃ a b c, bible_study t s = a ++ (t ++ (b ++ (s ++ c)))) ∧
    (∃ a b c, daily_reflection t s = a ++ (t ++ (b ++ (s ++ c)))) ∧
    (∀ t' s', t = t' → s = s' →
      bible_study t s = bible_study t' s' ∧
      daily_reflection t s = daily_reflection t' s' ∧
      bible_books = bible_books ∧ bible_translations = bible_translations) := by
  refine ⟨⟨studyHead, studyMid, studyTail, ?_⟩,
    ⟨reflectHead, reflectMid, reflectTail, ?_⟩, ?_⟩
  · simp only [bible_study, strAppend_assoc]
  · simp only [daily_reflection, strAppend_assoc]
  · intro t' s' ht hs
    subst ht; subst hs
    exact ⟨rfl, rfl, rfl, rfl⟩

/-- Witness for C10 at concrete arguments. -/
theorem prompts_and_resources_pure_witness :
    (∃ a b c, bible_study "love" "basic" = a ++ ("love" ++ (b ++ ("basic" ++ c)))) ∧
    (∃ a b c, daily_reflection "love" "basic" = a ++ ("love" ++ (b ++ ("basic" ++ c)))) ∧
    (bible_study "love" "basic" = bible_study "love" "basic" ∧
      daily_reflection "love" "basic" = daily_reflection "love" "basic" ∧
      bible_books = bible_books ∧ bible_translations = bible_translations) :=
  ⟨(prompts_and_resources_pure "love" "basic").1,
   (prompts_and_resources_pure "love" "basic").2.1,
   (prompts_and_resources_pure "love" "basic").2.2 "love" "basic" rfl rfl⟩

end Server
